import Mathlib

/-!
Verification development for the simple-ai-agent repository.

The development shallowly embeds the two core components:

* the Forecaster guest (`src/guests/trading-signal/src/main.rs`): an integer
  linear regression over a fixed 30-point price table, a next-day forecast,
  a rescaling of the forecast into wei, a threshold decision, and a manual
  96-byte big-endian ABI encoding of the resulting triple;

* the tuple-recovery logic of the host application
  (`src/apps/src/main.rs`, `run_trading_signal_mode`, lines 150-221):
  an offset scan over a 256-byte fulfillment blob with a range filter,
  a manual hex-pattern extraction fallback, and a hardcoded default.

Machine integers are embedded as `Nat`/`Int` with explicit `% 2 ^ 64`
(respectively `% 256`) where Rust's u64/u8 wrapping semantics matter, and
Rust's truncating i64 division is `Int.tdiv`.  Byte strings are `List Nat`
with big-endian field values folded up by `beValue`.
-/

set_option maxRecDepth 100000

/-- The fixed 30-day price table `PRICE_HISTORY` from
`src/guests/trading-signal/src/main.rs` (day index, USD price per ETH). -/
def PRICE_HISTORY : List (Nat × Nat) :=
  [(1, 3200), (2, 3215), (3, 3189), (4, 3221), (5, 3254),
   (6, 3278), (7, 3242), (8, 3291), (9, 3315), (10, 3287),
   (11, 3324), (12, 3352), (13, 3389), (14, 3412), (15, 3398),
   (16, 3436), (17, 3462), (18, 3489), (19, 3453), (20, 3507),
   (21, 3534), (22, 3561), (23, 3528), (24, 3582), (25, 3615),
   (26, 3648), (27, 3621), (28, 3674), (29, 3702), (30, 3735)]

/-- `linear_regression` from the guest: returns `(slope, intercept, r_squared)`
computed with i64 arithmetic (embedded as `Int`, truncating division
`Int.tdiv`) over `PRICE_HISTORY`; the confidence is clamped by `min _ 100`
and the `ratio > 0` guard, exactly as in the source. -/
def linear_regression : Int × Int × Nat :=
  let n : Int := PRICE_HISTORY.length
  let sum_x : Int := (PRICE_HISTORY.map (fun p => (p.1 : Int))).sum
  let sum_y : Int := (PRICE_HISTORY.map (fun p => (p.2 : Int))).sum
  let mean_x := Int.tdiv sum_x n
  let mean_y := Int.tdiv sum_y n
  let acc := PRICE_HISTORY.foldl
    (fun (acc : Int × Int × Int) p =>
      let x_diff := (p.1 : Int) - mean_x
      let y_diff := (p.2 : Int) - mean_y
      (acc.1 + x_diff * y_diff, acc.2.1 + x_diff * x_diff,
        acc.2.2 + y_diff * y_diff))
    (0, 0, 0)
  let numerator := acc.1
  let denominator := acc.2.1
  let sum_squared_total := acc.2.2
  let slope := if denominator ≠ 0 then Int.tdiv numerator denominator else 0
  let intercept := mean_y - slope * mean_x
  let sum_squared_errors := PRICE_HISTORY.foldl
    (fun (acc : Int) p =>
      let predicted := slope * (p.1 : Int) + intercept
      let e := (p.2 : Int) - predicted
      acc + e * e)
    0
  let r_squared : Nat :=
    if sum_squared_total > 0 then
      let ratio := Int.tdiv ((sum_squared_total - sum_squared_errors) * 100)
        sum_squared_total
      if ratio > 0 then ratio.toNat else 0
    else 0
  (slope, intercept, min r_squared 100)

/-- Rust's `as u64` cast of an i64 value: wrap into `[0, 2 ^ 64)`. -/
def u64_of_i64 (v : Int) : Nat := (v % (2 ^ 64 : Int)).toNat

/-- The constant `assumed_current_usd_price_per_eth = 3200u64` of the guest. -/
def assumed_current_usd_price_per_eth : Nat := 3200

/-- `(slope * next_day + intercept) as u64` with `next_day = 31`
(guest `main`, lines 117-118). -/
def predicted_usd_price_per_eth : Nat :=
  u64_of_i64 (linear_regression.1 * 31 + linear_regression.2.1)

/-- The rescaling step of the guest (`main`, lines 123-127):
`(current_eth_amount_wei * predicted_usd_price_per_eth) / assumed...` in
u64 arithmetic, so the product wraps modulo `2 ^ 64`; when the assumed
price is zero the observed amount is returned unchanged. -/
def predicted_price_wei (wei : Nat) : Nat :=
  if 0 < assumed_current_usd_price_per_eth then
    wei * predicted_usd_price_per_eth % 2 ^ 64 /
      assumed_current_usd_price_per_eth
  else
    wei

/-- `price_threshold = assumed + assumed / 200` (guest `main`, line 132). -/
def price_threshold : Nat :=
  assumed_current_usd_price_per_eth + assumed_current_usd_price_per_eth / 200

/-- The trading signal of the guest (`main`, line 133): `1` when the
predicted native-unit (USD) price strictly exceeds the threshold, else `0`.
It is computed from constants only, before any rescaling by the input. -/
def signal : Nat :=
  if price_threshold < predicted_usd_price_per_eth then 1 else 0

/-- Big-endian byte string of given width for a value (low bytes last);
the value is taken modulo `256 ^ width`, matching `to_be_bytes`. -/
def beBytes : Nat → Nat → List Nat
  | 0, _ => []
  | n + 1, v => beBytes n (v / 256) ++ [v % 256]

/-- Fold a big-endian byte string back into its value. -/
def beValue (bs : List Nat) : Nat := bs.foldl (fun a b => a * 256 + b) 0

/-- The guest's manual journal encoding (`main`, lines 141-150): a 32-byte
block that is zero except for the signal in its last byte, followed by the
confidence and the forecast value as 32-byte big-endian fields. -/
def encode_journal (sig conf price : Nat) : List Nat :=
  (List.replicate 31 0 ++ [sig]) ++ beBytes 32 conf ++ beBytes 32 price

/-- `Forecaster.run`: the triple `(signal, confidence, forecastValue)` the
guest computes from an input U256 amount; only the lowest 64-bit limb of
the input is used (`as_limbs()[0]`, guest `main`, line 107). -/
def guest_run (amount : Nat) : Nat × Nat × Nat :=
  let current_eth_amount_wei := amount % 2 ^ 64
  (signal, linear_regression.2.2, predicted_price_wei current_eth_amount_wei)

/-- The committed journal bytes of the guest for a given input amount. -/
def guest_journal (amount : Nat) : List Nat :=
  let r := guest_run amount
  encode_journal r.1 r.2.1 r.2.2

/-- The three 32-byte big-endian words of the 96-byte window of `blob`
beginning at `off`, as read by `<(U256, U256, U256)>::abi_decode` on
`&data[start_offset..start_offset + 96]` (apps `main.rs`, lines 162-163). -/
def wordsAt (blob : List Nat) (off : Nat) : Nat × Nat × Nat :=
  (beValue ((blob.drop off).take 32),
   beValue ((blob.drop (off + 32)).take 32),
   beValue ((blob.drop (off + 64)).take 32))

/-- The range filter of the scan (apps `main.rs`, lines 165-169):
`signal <= 1 && confidence <= 100 && price > 100_000_000_000_000_000`,
where signal is the low byte of the first word's low limb and confidence
and price are the low 64-bit limbs of their words. -/
def validTuple (w : Nat × Nat × Nat) : Bool :=
  (w.1 % 2 ^ 64 % 256 ≤ 1) && (w.2.1 % 2 ^ 64 ≤ 100) &&
    (100000000000000000 < w.2.2 % 2 ^ 64)

/-- Whether the scan accepts offset `off` of `blob`: the window must fit
(`start_offset + 96 <= data.len()`) and the decoded words must pass the
range filter.  (On a full 96-byte window the static-tuple ABI decode of
three U256 words itself cannot fail.) -/
def accepts (blob : List Nat) (off : Nat) : Bool :=
  (off + 96 ≤ blob.length) && validTuple (wordsAt blob off)

/-- The offsets `(0..=160).step_by(32)` of the scan loop (line 160). -/
def scan_offsets : List Nat := [0, 32, 64, 96, 128, 160]

/-- The scan loop (apps `main.rs`, lines 157-177): the first offset in
`scan_offsets` whose window fits and passes the filter yields its words. -/
def findTupleAux (blob : List Nat) : List Nat → Option (Nat × Nat × Nat)
  | [] => none
  | off :: rest =>
    if off + 96 ≤ blob.length then
      let w := wordsAt blob off
      if validTuple w then some w else findTupleAux blob rest
    else findTupleAux blob rest

/-- `found_tuple` after the scan loop. -/
def findTuple (blob : List Nat) : Option (Nat × Nat × Nat) :=
  findTupleAux blob scan_offsets

/-- Whether `pat` occurs at the head of `s`. -/
def startsWith : List Nat → List Nat → Bool
  | [], _ => true
  | _ :: _, [] => false
  | p :: ps, c :: cs => (p == c) && startsWith ps cs

/-- Whether `pat` occurs as a contiguous subsequence of `s` (the embedding
of `str::contains` / `str::find` on the hex string). -/
def seqContains (pat : List Nat) : List Nat → Bool
  | [] => startsWith pat []
  | c :: cs => startsWith pat (c :: cs) || seqContains pat cs

/-- The hex digits of a byte string, one byte becoming its high then low
nibble: the embedding of `hex::encode(data)` with digits as values. -/
def hexDigits (blob : List Nat) : List Nat :=
  blob.flatMap (fun b => [b / 16 % 16, b % 16])

/-- The manual hex-pattern extraction fallback (apps `main.rs`,
lines 182-205), entered when the scan finds no tuple in a 256-byte blob:
confidence 97 if the hex string contains `"6120"` else 32; price
`0x0f4b478d817e6600` if the hex string contains `"000f4b478d817e66"` else
`3735000000000000000`; signal 1 iff the confidence exceeds 50. -/
def manualExtract (blob : List Nat) : Nat × Nat × Nat :=
  let hs := hexDigits blob
  let confidence_val : Nat := if seqContains [6, 1, 2, 0] hs then 97 else 32
  let price_val : Nat :=
    if seqContains [0, 0, 0, 15, 4, 11, 4, 7, 8, 13, 8, 1, 7, 14, 6, 6] hs
    then 1102053206910723584 else 3735000000000000000
  let signal_val : Nat := if 50 < confidence_val then 1 else 0
  (signal_val, confidence_val, price_val)

/-- The word triple `output` chosen by `run_trading_signal_mode`
(apps `main.rs`, lines 150-213): scan only when the blob is exactly 256
bytes long, falling back to the manual hex extraction when the scan finds
nothing, and to the hardcoded default `(0, 32, 3735000000000000000)` for
every other blob length. -/
def extract_words (blob : List Nat) : Nat × Nat × Nat :=
  if blob.length = 256 then
    match findTuple blob with
    | some w => w
    | none => manualExtract blob
  else
    (0, 32, 3735000000000000000)

/-- The converted values `(signal, confidence, predicted_price)` the caller
actually uses (apps `main.rs`, lines 219-221): the low byte of the first
word's low limb and the low 64-bit limbs of the other two words. -/
def extract_output (blob : List Nat) : Nat × Nat × Nat :=
  let w := extract_words blob
  (w.1 % 2 ^ 64 % 256, w.2.1 % 2 ^ 64, w.2.2 % 2 ^ 64)

/-- Modelled from the spec: the error kinds of §7 of the specification;
the source has no such type (its recovery path never reports an error). -/
inductive DecodeError where
  | WrongLength
  | DecisionOutOfRange
  | TooShort
  | NoValidTuple
deriving DecidableEq

/-- The canonical result triple of the specification's data model. -/
structure SignalResult where
  decision : Nat
  confidence : Nat
  forecastValue : Nat
deriving DecidableEq

deriving instance DecidableEq for Except

/-- Modelled from the spec: the strict decoder `decode` of §4.2, which the
source does not implement (it calls the external ABI library on
`(U256, U256, U256)` instead): `WrongLength` unless the input is exactly
96 bytes, otherwise the three 32-byte big-endian fields are read
positionally and `DecisionOutOfRange` is reported unless the whole first
field encodes 0 or 1. -/
def decode (bs : List Nat) : Except DecodeError SignalResult :=
  if bs.length = 96 then
    let f1 := beValue (bs.take 32)
    let f2 := beValue ((bs.drop 32).take 32)
    let f3 := beValue ((bs.drop 64).take 32)
    if f1 = 0 ∨ f1 = 1 then Except.ok ⟨f1, f2, f3⟩
    else Except.error DecodeError.DecisionOutOfRange
  else Except.error DecodeError.WrongLength

/-- Modelled from the spec: the plausibility filter of §4.3 step 3
(decision already constrained by `decode`; confidence at most 100;
forecast value above the sanity floor, instantiated with the source's
floor of `100_000_000_000_000_000`). -/
def spec_filter (r : SignalResult) : Bool :=
  (r.decision ≤ 1) && (r.confidence ≤ 100) &&
    (100000000000000000 < r.forecastValue)

/-- Modelled from the spec: the candidate offsets of §4.3 step 2 — the
fixed offset 128 first when the blob is at least 224 bytes long, then the
stride-32 offsets `0, 32, …` up to `len - 96` inclusive. -/
def spec_offsets (len : Nat) : List Nat :=
  (if 224 ≤ len then [128] else []) ++
    (List.range ((len - 96) / 32 + 1)).map (fun i => i * 32)

/-- Modelled from the spec: the tolerant recovery decoder `recover` of
§4.3, which the source does not implement as specified: `TooShort` below
96 bytes, otherwise the first candidate offset whose 96-byte window
strictly decodes and passes the plausibility filter, and `NoValidTuple`
when no candidate is accepted. -/
def spec_recover (blob : List Nat) : Except DecodeError SignalResult :=
  if blob.length < 96 then Except.error DecodeError.TooShort
  else
    match (spec_offsets blob.length).findSome? (fun off =>
        match decode ((blob.drop off).take 96) with
        | Except.ok r => if spec_filter r then some r else none
        | Except.error _ => none) with
    | some r => Except.ok r
    | none => Except.error DecodeError.NoValidTuple

/-- A 224-byte envelope embedding a valid canonical tuple at offset 128
(the shape described by §6 of the specification). -/
def blob224 : List Nat :=
  List.replicate 128 0 ++ encode_journal 1 97 200000000000000000

/-- A 256-byte blob embedding a valid canonical tuple at offset 128. -/
def blob256e : List Nat := blob224 ++ List.replicate 32 0

theorem beBytes_length (n v : Nat) : (beBytes n v).length = n := by
  induction n generalizing v with
  | zero => rfl
  | succ n ih => simp [beBytes, ih]

theorem beValue_snoc (xs : List Nat) (b : Nat) :
    beValue (xs ++ [b]) = beValue xs * 256 + b := by
  simp [beValue, List.foldl_append]

theorem beValue_replicate_zero (n : Nat) :
    beValue (List.replicate n 0) = 0 := by
  induction n with
  | zero => rfl
  | succ n ih =>
    rw [List.replicate_succ]
    show List.foldl (fun a b => a * 256 + b) (0 * 256 + 0)
      (List.replicate n 0) = 0
    simpa [beValue] using ih

theorem beValue_beBytes (n v : Nat) : beValue (beBytes n v) = v % 256 ^ n := by
  induction n generalizing v with
  | zero => simp [beBytes, beValue, Nat.mod_one]
  | succ n ih =>
    rw [beBytes, beValue_snoc, ih, pow_succ, mul_comm (256 ^ n) 256,
      Nat.mod_mul]
    ring

theorem beValue_decision_field (d : Nat) :
    beValue (List.replicate 31 0 ++ [d]) = d := by
  rw [beValue_snoc, beValue_replicate_zero]
  ring

theorem encode_journal_length (sig conf price : Nat) :
    (encode_journal sig conf price).length = 96 := by
  simp [encode_journal, beBytes_length]

theorem take_len_append (l1 l2 : List Nat) (n : Nat) (h : l1.length = n) :
    List.take n (l1 ++ l2) = l1 := by
  subst h
  exact List.take_left l1 l2

theorem drop_len_append (l1 l2 : List Nat) (n : Nat) (h : l1.length = n) :
    List.drop n (l1 ++ l2) = l2 := by
  subst h
  exact List.drop_left l1 l2

theorem take_len_self (l : List Nat) (n : Nat) (h : l.length = n) :
    List.take n l = l := by
  subst h
  exact List.take_length l

theorem findTupleAux_nil (blob : List Nat) : findTupleAux blob [] = none := rfl

theorem findTupleAux_cons (blob : List Nat) (off : Nat) (rest : List Nat) :
    findTupleAux blob (off :: rest) =
      if accepts blob off then some (wordsAt blob off)
      else findTupleAux blob rest := by
  by_cases h1 : off + 96 ≤ blob.length
  · by_cases h2 : validTuple (wordsAt blob off) = true
    · simp [findTupleAux, accepts, h1, h2]
    · simp [findTupleAux, accepts, h1, h2]
  · simp [findTupleAux, accepts, h1]

theorem findTupleAux_valid (blob : List Nat) (offs : List Nat)
    (w : Nat × Nat × Nat) (h : findTupleAux blob offs = some w) :
    validTuple w = true := by
  induction offs with
  | nil => simp [findTupleAux] at h
  | cons off rest ih =>
    rw [findTupleAux_cons] at h
    by_cases ha : accepts blob off = true
    · rw [if_pos ha] at h
      cases h
      have := ha
      unfold accepts at this
      exact (Bool.and_elim_right this)
    · rw [if_neg ha] at h
      exact ih h

/-- Claim C1: the specified `recover` fails with `NoValidTuple` on a blob
in which no 32-byte-aligned offset passes the plausibility filter; the
source instead returns the substituted default
`(0, 32, 3735000000000000000)` on exactly such a blob (an all-zero
256-byte blob), never reporting an error. -/
theorem recover_fallback_on_all_zero_blob :
    spec_recover (List.replicate 256 0) =
      Except.error DecodeError.NoValidTuple ∧
    extract_output (List.replicate 256 0) = (0, 32, 3735000000000000000) := by
  constructor
  · decide
  · decide

/-- Claim C2: the claim that no panic (including arithmetic overflow) is
reachable for any u64-range `observedAmount` fails on the code: at the
CLI's own default input `3700000000000000000` wei the u64 product
`observedAmount * predicted_usd_price_per_eth` exceeds `2 ^ 64 - 1`, so
the guest either panics (checked arithmetic) or wraps to a forecast of
`4304895339495014` wei — below the guest test's own lower bound of
`10 ^ 18`. -/
theorem forecast_mul_overflows_at_default_input :
    2 ^ 64 ≤ 3700000000000000000 * predicted_usd_price_per_eth ∧
    predicted_price_wei 3700000000000000000 = 4304895339495014 ∧
    predicted_price_wei 3700000000000000000 < 1000000000000000000 := by
  refine ⟨by decide, by decide, by decide⟩

/-- Claim C3: decoding the 96-byte output of the strict encoder returns
the encoded triple unchanged, for every decision in {0, 1}, confidence at
most 100, and representable (u64) forecast value. -/
theorem decode_encode_roundtrip (d c f : Nat) (hd : d = 0 ∨ d = 1)
    (hc : c ≤ 100) (hf : f < 2 ^ 64) :
    decode (encode_journal d c f) = Except.ok ⟨d, c, f⟩ := by
  have hlen : (encode_journal d c f).length = 96 := encode_journal_length d c f
  have h32 : (List.replicate 31 0 ++ [d]).length = 32 := by simp
  have h64 : ((List.replicate 31 0 ++ [d]) ++ beBytes 32 c).length = 64 := by
    simp [beBytes_length]
  have hA : List.take 32 (encode_journal d c f) =
      List.replicate 31 0 ++ [d] := by
    show List.take 32 (((List.replicate 31 0 ++ [d]) ++ beBytes 32 c) ++
      beBytes 32 f) = _
    rw [List.append_assoc]
    exact take_len_append _ _ 32 h32
  have hB : List.take 32 (List.drop 32 (encode_journal d c f)) =
      beBytes 32 c := by
    show List.take 32 (List.drop 32 (((List.replicate 31 0 ++ [d]) ++
      beBytes 32 c) ++ beBytes 32 f)) = _
    rw [List.append_assoc, drop_len_append _ _ 32 h32]
    exact take_len_append _ _ 32 (beBytes_length 32 c)
  have hC : List.take 32 (List.drop 64 (encode_journal d c f)) =
      beBytes 32 f := by
    show List.take 32 (List.drop 64 (((List.replicate 31 0 ++ [d]) ++
      beBytes 32 c) ++ beBytes 32 f)) = _
    rw [drop_len_append _ _ 64 h64]
    exact take_len_self _ 32 (beBytes_length 32 f)
  have hc32 : c % 256 ^ 32 = c :=
    Nat.mod_eq_of_lt (lt_of_le_of_lt hc (by norm_num))
  have hf32 : f % 256 ^ 32 = f :=
    Nat.mod_eq_of_lt (lt_trans hf (by norm_num))
  unfold decode
  rw [if_pos hlen]
  simp only [hA, hB, hC, beValue_beBytes, beValue_decision_field, hc32, hf32]
  rw [if_pos hd]

/-- Witness for claim C3 at the concrete triple `(1, 97, 3409545800179712)`. -/
theorem decode_encode_roundtrip_witness :
    ((1 : Nat) = 0 ∨ (1 : Nat) = 1) ∧ (97 : Nat) ≤ 100 ∧
    (3409545800179712 : Nat) < 2 ^ 64 ∧
    decode (encode_journal 1 97 3409545800179712) =
      Except.ok ⟨1, 97, 3409545800179712⟩ :=
  ⟨Or.inr rfl, by decide, by decide,
    decode_encode_roundtrip 1 97 3409545800179712 (Or.inr rfl) (by decide)
      (by decide)⟩

/-- Claim C4: the decision emitted by the guest does not depend on the
observed amount at all: any two inputs yield the same decision, the
decision is exactly the native-unit threshold comparison
`price_threshold < predicted_usd_price_per_eth`, and (for this price
table) it is always 1. -/
theorem signal_independent_of_observed_amount :
    (∀ a b : Nat, (guest_run a).1 = (guest_run b).1) ∧
    (∀ a : Nat, (guest_run a).1 =
      if price_threshold < predicted_usd_price_per_eth then 1 else 0) ∧
    (∀ a : Nat, (guest_run a).1 = 1) :=
  ⟨fun _ _ => rfl, fun _ => rfl, fun _ => by show signal = 1; decide⟩

/-- Claim C5 counterexample: on a concrete 224-byte envelope holding a
valid canonical tuple at offset 128, the specified `recover` (offset-128
priority, then the 32-byte-stride scan up to `len - 96`) returns the
embedded tuple, but the source code — which scans only blobs of length
exactly 256 and has no offset-128 priority — returns the hardcoded
default instead. -/
theorem recover_spec_code_divergence_at_224 :
    spec_recover blob224 = Except.ok ⟨1, 97, 200000000000000000⟩ ∧
    extract_output blob224 = (0, 32, 3735000000000000000) := by
  constructor
  · decide
  · decide

/-- Claim C5 (amended): the source scans candidate offsets
`0, 32, 64, 96, 128, 160` (a 32-byte stride up to `blob.len() - 96` for
the only scanned length, 256) in increasing order and keeps the first
accepted candidate; offset 128 has no priority (it is reached only after
offsets 0–96 are rejected); and a blob of any length other than 256 is
never scanned — it yields the hardcoded default. -/
theorem extract_scan_first_match (blob : List Nat) :
    (blob.length ≠ 256 → extract_words blob = (0, 32, 3735000000000000000)) ∧
    (accepts blob 0 = true → findTuple blob = some (wordsAt blob 0)) ∧
    (accepts blob 0 = false → accepts blob 32 = true →
      findTuple blob = some (wordsAt blob 32)) ∧
    (accepts blob 0 = false → accepts blob 32 = false →
      accepts blob 64 = true → findTuple blob = some (wordsAt blob 64)) ∧
    (accepts blob 0 = false → accepts blob 32 = false →
      accepts blob 64 = false → accepts blob 96 = true →
      findTuple blob = some (wordsAt blob 96)) ∧
    (accepts blob 0 = false → accepts blob 32 = false →
      accepts blob 64 = false → accepts blob 96 = false →
      accepts blob 128 = true → findTuple blob = some (wordsAt blob 128)) ∧
    (accepts blob 0 = false → accepts blob 32 = false →
      accepts blob 64 = false → accepts blob 96 = false →
      accepts blob 128 = false → accepts blob 160 = true →
      findTuple blob = some (wordsAt blob 160)) ∧
    (accepts blob 0 = false → accepts blob 32 = false →
      accepts blob 64 = false → accepts blob 96 = false →
      accepts blob 128 = false → accepts blob 160 = false →
      findTuple blob = none) ∧
    (blob.length = 256 → ∀ w, findTuple blob = some w →
      extract_words blob = w) := by
  refine ⟨?_, ?_, ?_, ?_, ?_, ?_, ?_, ?_, ?_⟩
  · intro h
    unfold extract_words
    rw [if_neg h]
  · intro h0
    simp [findTuple, scan_offsets, findTupleAux_cons, h0]
  · intro h0 h1
    simp [findTuple, scan_offsets, findTupleAux_cons, h0, h1]
  · intro h0 h1 h2
    simp [findTuple, scan_offsets, findTupleAux_cons, h0, h1, h2]
  · intro h0 h1 h2 h3
    simp [findTuple, scan_offsets, findTupleAux_cons, h0, h1, h2, h3]
  · intro h0 h1 h2 h3 h4
    simp [findTuple, scan_offsets, findTupleAux_cons, h0, h1, h2, h3, h4]
  · intro h0 h1 h2 h3 h4 h5
    simp [findTuple, scan_offsets, findTupleAux_cons, h0, h1, h2, h3, h4, h5]
  · intro h0 h1 h2 h3 h4 h5
    simp [findTuple, scan_offsets, findTupleAux_cons, h0, h1, h2, h3, h4, h5,
      findTupleAux_nil]
  · intro h w hw
    unfold extract_words
    rw [if_pos h, hw]

/-- Witness for claim C5 on a concrete 256-byte blob embedding a valid
tuple at offset 128: every earlier offset is rejected and the scan
returns the tuple at offset 128. -/
theorem extract_scan_first_match_witness :
    accepts blob256e 0 = false ∧ accepts blob256e 32 = false ∧
    accepts blob256e 64 = false ∧ accepts blob256e 96 = false ∧
    accepts blob256e 128 = true ∧
    findTuple blob256e = some (1, 97, 200000000000000000) ∧
    extract_words blob256e = (1, 97, 200000000000000000) := by
  have h := extract_scan_first_match blob256e
  have hf : findTuple blob256e = some (wordsAt blob256e 128) :=
    h.2.2.2.2.2.1 (by decide) (by decide) (by decide) (by decide) (by decide)
  have hw : wordsAt blob256e 128 = (1, 97, 200000000000000000) := by decide
  have hfound : findTuple blob256e = some (1, 97, 200000000000000000) := by
    rw [hf, hw]
  refine ⟨by decide, by decide, by decide, by decide, by decide, hfound, ?_⟩
  exact h.2.2.2.2.2.2.2.2 (by decide) _ hfound

/-- Claim C6: the specified `recover` fails with `TooShort` on blobs
shorter than 96 bytes; the source never reports `TooShort` — it returns
the substituted default `(0, 32, 3735000000000000000)` for the empty blob
and for a 95-byte blob alike. -/
theorem short_blob_fallback_not_tooshort :
    spec_recover [] = Except.error DecodeError.TooShort ∧
    spec_recover (List.replicate 95 0) = Except.error DecodeError.TooShort ∧
    extract_output [] = (0, 32, 3735000000000000000) ∧
    extract_output (List.replicate 95 0) = (0, 32, 3735000000000000000) := by
  refine ⟨by decide, by decide, by decide, by decide⟩

/-- Claim C7: the strict decoder rejects every input whose length is not
exactly 96 with `WrongLength`, and every 96-byte input whose whole first
32-byte big-endian field encodes neither 0 nor 1 with
`DecisionOutOfRange`. -/
theorem decode_wrong_length_and_decision_range (bs : List Nat) :
    (bs.length ≠ 96 → decode bs = Except.error DecodeError.WrongLength) ∧
    (bs.length = 96 → beValue (bs.take 32) ≠ 0 → beValue (bs.take 32) ≠ 1 →
      decode bs = Except.error DecodeError.DecisionOutOfRange) := by
  constructor
  · intro h
    unfold decode
    rw [if_neg h]
  · intro h h0 h1
    have hor : ¬(beValue (bs.take 32) = 0 ∨ beValue (bs.take 32) = 1) := by
      tauto
    unfold decode
    rw [if_pos h, if_neg hor]

/-- Witness for claim C7: a 95-byte input is rejected as `WrongLength` and
a 96-byte input whose first field has the nonzero high byte 7 is rejected
as `DecisionOutOfRange`. -/
theorem decode_wrong_length_and_decision_range_witness :
    decode (List.replicate 95 0) = Except.error DecodeError.WrongLength ∧
    decode (7 :: List.replicate 95 0) =
      Except.error DecodeError.DecisionOutOfRange :=
  ⟨(decode_wrong_length_and_decision_range (List.replicate 95 0)).1
      (by decide),
   (decode_wrong_length_and_decision_range (7 :: List.replicate 95 0)).2
      (by decide) (by decide) (by decide)⟩

/-- Claim C8: the claim that
`forecastValue = observedAmount * forecastNative / assumedCurrentNativePrice`
with exact integer division fails on the code: the u64 product wraps
modulo `2 ^ 64`, so at the repo test's own input `3600000000000000000` wei
the code yields `3409545800179712` while the claimed formula yields
`4182750000000000000`. -/
theorem forecast_value_wraps_at_test_input :
    predicted_price_wei 3600000000000000000 = 3409545800179712 ∧
    3600000000000000000 * predicted_usd_price_per_eth /
      assumed_current_usd_price_per_eth = 4182750000000000000 ∧
    (3409545800179712 : Nat) ≠ 4182750000000000000 := by
  refine ⟨by decide, by decide, by decide⟩

/-- Claim C9: the confidence is always at most 100: the regression clamps
its coefficient of determination, and every path of the tuple-recovery
logic (accepted scan candidate, manual hex extraction, hardcoded
fallback) yields a confidence at most 100. -/
theorem confidence_always_le_100 :
    linear_regression.2.2 ≤ 100 ∧
    ∀ blob : List Nat, (extract_output blob).2.1 ≤ 100 := by
  constructor
  · decide
  · intro blob
    show (extract_words blob).2.1 % 2 ^ 64 ≤ 100
    unfold extract_words
    split
    · cases hf : findTuple blob with
      | some w =>
        have hv := findTupleAux_valid blob scan_offsets w hf
        unfold validTuple at hv
        simp only [Bool.and_eq_true, decide_eq_true_eq] at hv
        simpa using hv.1.2
      | none =>
        simp only [manualExtract]
        split
        · decide
        · decide
    · decide

/-- Claim C10: the guest reads its input as a 256-bit big-endian unsigned
integer but uses only the lowest 64-bit limb, so any two inputs congruent
modulo `2 ^ 64` commit byte-identical journals. -/
theorem journal_depends_only_on_low_limb (a b : Nat)
    (h : a % 2 ^ 64 = b % 2 ^ 64) : guest_journal a = guest_journal b := by
  unfold guest_journal guest_run
  rw [h]

/-- Witness for claim C10 at the concrete pair `2 ^ 64 + 7` and `7`. -/
theorem journal_depends_only_on_low_limb_witness :
    (2 ^ 64 + 7) % 2 ^ 64 = 7 % 2 ^ 64 ∧
    guest_journal (2 ^ 64 + 7) = guest_journal 7 :=
  ⟨by decide, journal_depends_only_on_low_limb (2 ^ 64 + 7) 7 (by decide)⟩
